import Mathlib

/-!
Verification of the Session & Response-Synchronization Engine of the
SillyTavern↔Discord bridge (src/STDiscord/sillytavern-discord-integration.py).

The engine polls an externally-driven web surface through a browser-automation
adapter.  We embed the relevant functions shallowly:

* A response unit (one rendered message bubble, CSS class `.mes`) is a record
  of the attributes the code reads: `ch`, `ch_name`, `id`, `mesid`, and the
  inner text of `.mes_text`.  Reading a unit's attributes through the
  adapter can raise (stale element under live re-render); we model that with a
  per-unit `readFault` flag meaning "any `get_attribute` call on this element
  raises".
* Python truthiness on optional strings (`a or b` treats both `None` and `""`
  as falsy) is embedded by `pyOr`.
* The custom wait condition `condition_met` (lines 380–428), the timeout
  fallback of `_wait_for_response` (lines 457–476), the success path
  (lines 432–438), `_update_last_message_id` (lines 307–320),
  character selection (lines 250–287), `send_message`'s exception handling
  (lines 323–364), `set_persona`'s name computation (lines 484–497) and
  `disconnect` (lines 527–542) are each translated below next to the claims
  about them.
-/

/-- One rendered response unit as the engine reads it through the adapter:
`ch` / `ch_name` / `id` / `mesid` attributes (each possibly absent), the
inner text of its `.mes_text` child (trimmed at the use sites, as the code
calls `.strip()` on extraction), and whether attribute reads on this
element currently raise (stale-element fault). -/
structure RUnit where
  ch : Option String
  chName : Option String
  idAttr : Option String
  mesid : Option String
  text : String
  readFault : Bool
deriving DecidableEq, Repr

/-- Python `a or b` on two optional strings: `None` and `""` are falsy. -/
def pyOr (a b : Option String) : Option String :=
  match a with
  | some s => if s = "" then b else some s
  | none => b

/-- Python `str.strip()`: drop leading and trailing whitespace (kept
kernel-reducible by working on the character list). -/
def pyStrip (s : String) : String :=
  ⟨((s.data.dropWhile Char.isWhitespace).reverse.dropWhile
      Char.isWhitespace).reverse⟩

/-- The combined speaker attribute
`msg.get_attribute('ch') or msg.get_attribute('ch_name')` (line 417). -/
def speakerAttr (u : RUnit) : Option String :=
  pyOr u.ch u.chName

/-- The speaker test of lines 417–418: the combined attribute is truthy and its
trimmed value equals the expected character name. -/
def speakerMatches (character : String) (u : RUnit) : Bool :=
  match speakerAttr u with
  | some s => s ≠ "" && pyStrip s = character
  | none => false

/-- The synthesized unit identifier
`msg.get_attribute('id') or msg.get_attribute('mesid') or str(idx)`
(lines 314, 400, 466): the identifier the code synthesizes for the unit at
position `idx`. -/
def unitIdAt (u : RUnit) (idx : Nat) : String :=
  match pyOr u.idAttr u.mesid with
  | some s => s
  | none => toString idx

/-- The Marker recomputation `_update_last_message_id` (lines 307–320): the id
of the newest unit, falling back to its positional index when the attribute
read raises; `None` when the list is empty. -/
def lastMsgMarker (units : List RUnit) : Option String :=
  match units.getLast? with
  | none => none
  | some u =>
      some (if u.readFault then toString (units.length - 1)
            else unitIdAt u (units.length - 1))

/-- The marker-resolution loop of lines 396–405: walk `reversed(all_messages)`
(here: the position-tagged list, newest first), skip units whose attribute
reads raise (`except: continue`), and return the position of the first unit
whose synthesized id equals the stored marker. -/
def findMarkerAux (mid : String) : List (Nat × RUnit) → Option Nat
  | [] => none
  | (pos, u) :: rest =>
      if u.readFault then findMarkerAux mid rest
      else if unitIdAt u pos = mid then some pos
      else findMarkerAux mid rest

/-- Position of the stored marker's unit in the current list, newest occurrence
first, or `none` when it no longer resolves. -/
def resolveMarkerIdx (mid : String) (units : List RUnit) : Option Nat :=
  findMarkerAux mid units.enum.reverse

/-- The index at which the candidate scan starts (lines 393–412):
one past the resolved marker position; `0` when there is no stored marker
(including the Python-falsy empty string, line 396) or when it no longer
resolves (lines 406–408, "checking from start"). -/
def scanStartIdx (marker : Option String) (units : List RUnit) : Nat :=
  match marker with
  | none => 0
  | some mid =>
      if mid = "" then 0
      else
        match resolveMarkerIdx mid units with
        | some p => p + 1
        | none => 0

/-- The candidate loop of lines 412–424, carrying the running index `i`:
a unit whose attribute read raises aborts the whole tick (`return None`,
line 424); the first unit passing the speaker test is returned together with
its position; otherwise the scan moves on. -/
def scanLoopAux (character : String) : Nat → List RUnit → Option (Nat × RUnit)
  | _, [] => none
  | i, u :: rest =>
      if u.readFault then none
      else if speakerMatches character u then some (i, u)
      else scanLoopAux character (i + 1) rest

/-- The full candidate scan of one tick: start strictly after the resolved
marker (or at the beginning) and run the candidate loop on the remaining
units. -/
def scanForResponse (character : String) (marker : Option String)
    (units : List RUnit) : Option (Nat × RUnit) :=
  scanLoopAux character (scanStartIdx marker units)
    (units.drop (scanStartIdx marker units))

/-- The typing indicator (`.typing_indicator`): present or absent, and when
present whether `is_displayed()` holds. -/
structure Indicator where
  displayed : Bool
deriving DecidableEq, Repr

/-- One poll tick's view of the surface: the optional typing indicator and the
current unit list, re-resolved fresh every tick. -/
structure SurfaceState where
  indicator : Option Indicator
  units : List RUnit
deriving DecidableEq, Repr

/-- The custom wait condition `condition_met` (lines 380–428): if the typing
indicator exists and is displayed the tick is not settled (`None`);
otherwise the after-marker candidate scan decides the tick. -/
def condition_met (character : String) (marker : Option String)
    (s : SurfaceState) : Option (Nat × RUnit) :=
  match s.indicator with
  | some ind => if ind.displayed then none
                else scanForResponse character marker s.units
  | none => scanForResponse character marker s.units

/-- The timeout fallback of `_wait_for_response` (lines 457–476): on
`TimeoutException`, look at the newest unit once more; if its attribute reads
raise, the surrounding `except` swallows the error and the timeout string is
returned.  Otherwise the unit is accepted exactly when its speaker test passes
and its synthesized id differs from the stored marker (Python `!=` between a
string and a possibly-`None` marker); acceptance returns the stripped text and
recomputes the marker via `_update_last_message_id`; rejection returns the
literal timeout string with the marker untouched.  The `connected` flag is
passed through untouched in every branch, as the code never assigns it here. -/
def timeoutCheck (character : String) (marker : Option String)
    (connected : Bool) (units : List RUnit) : String × Option String × Bool :=
  match units.getLast? with
  | none => ("AI response timed out.", marker, connected)
  | some last =>
      if last.readFault then ("AI response timed out.", marker, connected)
      else if speakerMatches character last then
        if marker ≠ some (unitIdAt last (units.length - 1)) then
          (pyStrip last.text, lastMsgMarker units, connected)
        else ("AI response timed out.", marker, connected)
      else ("AI response timed out.", marker, connected)

/-- The settle path of `_wait_for_response` (lines 432–438): when the wait
condition returns a unit, the code extracts and strips its `.mes_text` text and
recomputes the marker with `_update_last_message_id` — i.e. from the newest
unit of the list, not from the matched unit; the pair (returned text, new
marker) is produced with no emptiness test on the text. -/
def waitOutcomeOnSettle (character : String) (marker : Option String)
    (s : SurfaceState) : Option (String × Option String) :=
  match condition_met character marker s with
  | some r => some (pyStrip r.2.text, lastMsgMarker s.units)
  | none => none

/-- XPath `normalize-space()`: strip leading/trailing whitespace and collapse
every internal whitespace run to a single space (kept kernel-reducible by
working on the character list). -/
def normalizeSpace (s : String) : String :=
  ⟨List.intercalate [' '] ((s.data.splitOnP Char.isWhitespace).filter
      (· ≠ []))⟩

/-- Whether `select_character` (lines 250–287) finds an entry for `name` among
the displayed entry names: the primary XPath locator
(`[normalize-space()='name']`, line 252) matches an entry up to whitespace
normalization; on its timeout the fallback iteration (lines 269–279) compares
each entry's `.text.strip()` for exact equality.  Selection succeeds iff either
path matches; otherwise the function reports the character as not found. -/
def selectSucceeds (entries : List String) (name : String) : Bool :=
  entries.any (fun e => normalizeSpace e = name) ||
  entries.any (fun e => pyStrip e = name)

/-- The mutable fields of `SillyTavernController` (lines 176–180): the
webdriver handle (presence only), the `connected` flag, the selected character
and the stored message marker. -/
structure STSession where
  driver : Option Unit
  connected : Bool
  current_character : Option String
  last_message_id : Option String
deriving DecidableEq, Repr

/-- What happens at the adapter during one `send_message` body (lines 330–364)
after the connection guard: the input-field lookup can raise
`TimeoutException` or `NoSuchElementException`, interaction can raise a
`WebDriverException`, something else can raise a generic exception, or
everything succeeds and the result of `_wait_for_response` is returned. -/
inductive SubmitEvent
  | ok
  | inputTimeout
  | inputMissing
  | webDriverFault (msg : String)
  | otherFault (msg : String)
deriving DecidableEq, Repr

/-- The exception handling of `send_message` (lines 330–364), for a session
that passed the connection guard of lines 325–328.  The result of
`set_persona` is discarded by the code (line 333 awaits it without using the
returned boolean), hence the ignored `_personaOk` argument.  `waitResult`
stands for what `_wait_for_response` returns on the success path: the reply
string and the marker value it leaves stored.  Each exception arm returns the
code's literal error string; only the `WebDriverException` arm clears
`connected` (line 360). -/
def sendMessage (s : STSession) (_personaOk : Bool) (ev : SubmitEvent)
    (waitResult : String × Option String) : String × STSession :=
  match ev with
  | .ok => (waitResult.1, { s with last_message_id := waitResult.2 })
  | .inputTimeout =>
      ("Error: Could not find the message input area in SillyTavern.", s)
  | .inputMissing =>
      ("Error: Could not find the message input area in SillyTavern.", s)
  | .webDriverFault m =>
      ("Error interacting with SillyTavern: " ++ m,
       { s with connected := false })
  | .otherFault m => ("An unexpected error occurred: " ++ m, s)

/-- The configuration fields consumed by persona handling: `USE_PERSONAS`,
`PERSONA_MAPPING` and `DEFAULT_CHARACTER_NAME`. -/
structure BotConfig where
  use_personas : Bool
  persona_mapping : List (String × String)
  default_character_name : String
deriving DecidableEq, Repr

/-- The persona-name computation of `set_persona` (lines 488–497): when
`user_id` is truthy and present in `PERSONA_MAPPING` the mapped name is used,
otherwise the hardcoded default `"User"` (line 490). -/
def personaNameFor (mapping : List (String × String))
    (user_id : Option String) : String :=
  match user_id with
  | some uid =>
      if uid = "" then "User"
      else
        match List.lookup uid mapping with
        | some n => n
        | none => "User"
  | none => "User"

/-- Modelled from the spec for comparison only (claim C9 speaks of "the
configured default identity name"): the configured default identity name is
the `DEFAULT_CHARACTER_NAME` configuration entry (spec section 6,
`defaultIdentityName`). -/
def claimedPersonaFallback (cfg : BotConfig) : String :=
  cfg.default_character_name

/-- One adapter-visible action of a dispatch. -/
inductive AdapterOp
  | personaCmd (cmd : String)
  | submitPayload (text : String)
  | awaitResponse
deriving DecidableEq, Repr

/-- The ordered adapter actions of one `send_message` call (lines 330–350):
when `USE_PERSONAS` is set and the username is truthy, the `/persona` command
built from the mapped (or default) persona name is typed and submitted first
(lines 331–333 and 500–507), then the payload is submitted and the response
awaited.  The sequence does not depend on whether the persona command itself
succeeded. -/
def sendOps (cfg : BotConfig) (username : Option String)
    (user_id : Option String) (text : String) : List AdapterOp :=
  (match username with
   | some n =>
       if cfg.use_personas && n ≠ "" then
         [AdapterOp.personaCmd
            ("/persona " ++ personaNameFor cfg.persona_mapping user_id)]
       else []
   | none => []) ++
  [AdapterOp.submitPayload text, AdapterOp.awaitResponse]

/-- The `disconnect` method (lines 527–542): when a driver handle exists the
`finally` block clears the handle, the `connected` flag, the character and the
marker; when no handle exists the method only logs and leaves every field as
it was. -/
def disconnect (s : STSession) : STSession :=
  match s.driver with
  | some _ =>
      { driver := none, connected := false, current_character := none,
        last_message_id := none }
  | none => s

/-- Label for one of two concurrently submitted relay requests. -/
inductive TaskTag
  | A
  | B
deriving DecidableEq, Repr

/-- The adapter-facing operations of one relay request, tagged by its task. -/
inductive RelayOp
  | personaCmd (t : TaskTag)
  | sendPayload (t : TaskTag)
  | detectLoop (t : TaskTag)
deriving DecidableEq, Repr

/-- The atomic segments of one relay call between `await` suspension points,
with persona mode enabled, read off the code: `on_message` awaits
`send_message` (line 595), which awaits `set_persona` (line 333); that method
types the `/persona` command and then suspends at `await asyncio.sleep(0.5)`
(line 510).  After resumption the payload is typed and submitted and the
detection wait runs (`WebDriverWait.until` is a synchronous call, so the
detection loop itself contains no suspension point).  There is no lock or
queue anywhere on this path. -/
def relaySegments (t : TaskTag) : List (List RelayOp) :=
  [[RelayOp.personaCmd t], [RelayOp.sendPayload t, RelayOp.detectLoop t]]

/-- An interleaving of two lists of atomic segments: the event loop may run
the ready segments of either task at each suspension point, preserving each
task's own order. -/
inductive SegInterleave :
    List (List RelayOp) → List (List RelayOp) → List (List RelayOp) → Prop
  | nil : SegInterleave [] [] []
  | left (s : List RelayOp) {xs ys zs : List (List RelayOp)} :
      SegInterleave xs ys zs → SegInterleave (s :: xs) ys (s :: zs)
  | right (s : List RelayOp) {xs ys zs : List (List RelayOp)} :
      SegInterleave xs ys zs → SegInterleave xs (s :: ys) (s :: zs)

/-- The flat adapter-operation trace of one whole relay call. -/
def relayTrace (t : TaskTag) : List RelayOp :=
  (relaySegments t).flatten

/-- A trace is serialized when one call's operations run in full before the
other call's. -/
def Serialized (tr : List RelayOp) : Prop :=
  tr = relayTrace TaskTag.A ++ relayTrace TaskTag.B ∨
  tr = relayTrace TaskTag.B ++ relayTrace TaskTag.A

/-- The schedule produced when request B arrives while request A is suspended
in `asyncio.sleep` inside `set_persona`: A types its persona command and
suspends, B types its persona command and suspends, A resumes and completes,
B resumes and completes. -/
def badSchedule : List (List RelayOp) :=
  [[RelayOp.personaCmd TaskTag.A], [RelayOp.personaCmd TaskTag.B],
   [RelayOp.sendPayload TaskTag.A, RelayOp.detectLoop TaskTag.A],
   [RelayOp.sendPayload TaskTag.B, RelayOp.detectLoop TaskTag.B]]

/-! ## Shared lemmas about the candidate scan -/

/-- Characterization of the candidate loop: a returned unit sits at its
reported position (counting from the start offset `k`), passes the speaker
test, and every unit the loop visited before it fails the speaker test. -/
theorem scanLoopAux_spec (c : String) :
    ∀ (l : List RUnit) (k i : Nat) (u : RUnit),
      scanLoopAux c k l = some (i, u) →
      k ≤ i ∧ l[i - k]? = some u ∧ speakerMatches c u = true ∧
      ∀ j v, k ≤ j → j < i → l[j - k]? = some v →
        speakerMatches c v = false := by
  intro l
  induction l with
  | nil => intro k i u h; simp [scanLoopAux] at h
  | cons a rest ih =>
    intro k i u h
    by_cases hf : a.readFault
    · simp [scanLoopAux, hf] at h
    · by_cases hm : speakerMatches c a
      · simp [scanLoopAux, hf, hm] at h
        obtain ⟨hi, hu⟩ := h
        subst hi; subst hu
        refine ⟨le_refl _, by simp, hm, ?_⟩
        intro j v hkj hji
        omega
      · simp [scanLoopAux, hf, hm] at h
        obtain ⟨h1, h2, h3, h4⟩ := ih (k + 1) i u h
        refine ⟨by omega, ?_, h3, ?_⟩
        · have he : i - k = (i - (k + 1)) + 1 := by omega
          rw [he]
          simpa using h2
        · intro j v hkj hji hget
          rcases Nat.eq_or_lt_of_le hkj with heq | hlt
          · subst heq
            simp at hget
            rw [hget] at hm
            simpa using hm
          · have he : j - k = (j - (k + 1)) + 1 := by omega
            rw [he] at hget
            apply h4 j v (by omega) hji
            simpa using hget

/-- Lifting of `scanLoopAux_spec` through the `drop`: a unit returned by the
full scan sits at its reported absolute position, at or after the scan start,
and no unit between the scan start and it passes the speaker test. -/
theorem scanForResponse_spec (c : String) (marker : Option String)
    (units : List RUnit) (i : Nat) (u : RUnit)
    (h : scanForResponse c marker units = some (i, u)) :
    scanStartIdx marker units ≤ i ∧
    units[i]? = some u ∧
    speakerMatches c u = true ∧
    ∀ j v, scanStartIdx marker units ≤ j → j < i → units[j]? = some v →
      speakerMatches c v = false := by
  unfold scanForResponse at h
  obtain ⟨h1, h2, h3, h4⟩ := scanLoopAux_spec c _ _ _ _ h
  refine ⟨h1, ?_, h3, ?_⟩
  · rw [List.getElem?_drop] at h2
    rwa [Nat.add_sub_cancel' h1] at h2
  · intro j v hkj hji hget
    apply h4 j v hkj hji
    rw [List.getElem?_drop]
    rwa [Nat.add_sub_cancel' hkj]

/-- A unit whose attribute reads raise aborts the candidate loop (with the
not-settled result) as soon as it is visited, whatever follows it. -/
theorem scanLoopAux_fault_abort (c : String) :
    ∀ (pre : List RUnit) (k : Nat) (u : RUnit) (rest : List RUnit),
      (∀ v ∈ pre, v.readFault = false ∧ speakerMatches c v = false) →
      u.readFault = true →
      scanLoopAux c k (pre ++ u :: rest) = none := by
  intro pre
  induction pre with
  | nil =>
    intro k u rest _ hu
    simp [scanLoopAux, hu]
  | cons a tl ih =>
    intro k u rest hpre hu
    obtain ⟨ha1, ha2⟩ := hpre a (by simp)
    simp only [List.cons_append, scanLoopAux, ha1, ha2]
    simpa using ih (k + 1) u rest (fun v hv => hpre v (by simp [hv])) hu

/-! ## C1 — earliest matching unit strictly after the marker -/

/-- C1.  On a tick the detector settles at all, the designated unit is the
first unit passing the trimmed-speaker test at or after the scan start, which
is strictly after the resolved marker position; no unit between the scan start
and the designated one matches; and whenever the stored marker resolves to no
current unit, the scan start is position 0 (the beginning of the list). -/
theorem c1_earliest_after_marker (character : String)
    (marker : Option String) (s : SurfaceState) (i : Nat) (u : RUnit)
    (h : condition_met character marker s = some (i, u)) :
    (scanStartIdx marker s.units ≤ i ∧
     s.units[i]? = some u ∧
     speakerMatches character u = true ∧
     ∀ j v, scanStartIdx marker s.units ≤ j → j < i → s.units[j]? = some v →
       speakerMatches character v = false) ∧
    (∀ mid, resolveMarkerIdx mid s.units = none →
      scanStartIdx (some mid) s.units = 0) ∧
    (∀ mid p, mid ≠ "" → resolveMarkerIdx mid s.units = some p →
      scanStartIdx (some mid) s.units = p + 1) := by
  refine ⟨?_, ?_, ?_⟩
  · unfold condition_met at h
    rcases hs : s.indicator with _ | ind
    · rw [hs] at h
      exact scanForResponse_spec _ _ _ _ _ h
    · rw [hs] at h
      by_cases hd : ind.displayed
      · simp [hd] at h
      · simp [hd] at h
        exact scanForResponse_spec _ _ _ _ _ h
  · intro mid hres
    unfold scanStartIdx
    by_cases he : mid = ""
    · simp [he]
    · simp [he, hres]
  · intro mid p hne hres
    simp [scanStartIdx, hne, hres]

/-- Units for the C1 witness: a marker unit, a non-matching unit, the earliest
matching unit and a later matching unit. -/
def c1exU0 : RUnit := ⟨none, none, some "m0", none, "old", false⟩

def c1exU1 : RUnit := ⟨some "Echo", none, none, none, "hi", false⟩

def c1exU2 : RUnit := ⟨some " Nova ", none, some "m2", none, "reply", false⟩

def c1exU3 : RUnit := ⟨some "Nova", none, some "m3", none, "later", false⟩

/-- Surface state for the C1 witness: indicator present but not displayed. -/
def c1exState : SurfaceState :=
  ⟨some ⟨false⟩, [c1exU0, c1exU1, c1exU2, c1exU3]⟩

/-- Witness for C1: on the concrete state the detector designates the unit at
position 2 (the earliest matching one, not the later position-3 match), the
scan start is 1 (strictly after the marker unit at 0), and the non-matching
unit at position 1 indeed fails the speaker test. -/
theorem c1_earliest_after_marker_witness :
    condition_met "Nova" (some "m0") c1exState = some (2, c1exU2) ∧
    scanStartIdx (some "m0") c1exState.units ≤ 2 ∧
    speakerMatches "Nova" c1exU2 = true ∧
    speakerMatches "Nova" c1exU1 = false := by
  have h : condition_met "Nova" (some "m0") c1exState = some (2, c1exU2) :=
    by decide
  have hs := c1_earliest_after_marker "Nova" (some "m0") c1exState 2 c1exU2 h
  exact ⟨h, hs.1.1, hs.1.2.2.1,
    hs.1.2.2.2 1 c1exU1 (by decide) (by decide) (by decide)⟩

/-! ## C4 — the producing-output signal suppresses settling -/

/-- C4.  On a tick where the typing indicator is present and displayed the
wait condition returns the not-settled value, whatever the unit list
contains: the candidate scan is not consulted. -/
theorem c4_typing_suppresses (character : String) (marker : Option String)
    (s : SurfaceState) (ind : Indicator)
    (h1 : s.indicator = some ind) (h2 : ind.displayed = true) :
    condition_met character marker s = none := by
  simp [condition_met, h1, h2]

/-- Matching unit for the C4 witness. -/
def c4exU1 : RUnit := ⟨some "Nova", none, some "m1", none, "ready", false⟩

/-- State for the C4 witness: displayed indicator together with a matching
unit after the marker. -/
def c4exState : SurfaceState :=
  ⟨some ⟨true⟩, [⟨none, none, some "m0", none, "old", false⟩, c4exU1]⟩

/-- Witness for C4: with the indicator displayed the tick does not settle,
even though the scan alone would have designated the matching unit at
position 1. -/
theorem c4_typing_suppresses_witness :
    condition_met "Nova" (some "m0") c4exState = none ∧
    scanForResponse "Nova" (some "m0") c4exState.units = some (1, c4exU1) :=
  ⟨c4_typing_suppresses "Nova" (some "m0") c4exState ⟨true⟩ rfl rfl,
   by decide⟩

/-! ## C6 — a mid-scan fault aborts the tick rather than skipping the unit -/

/-- Units for the C6 development: a marker unit, a faulty unit and a readable
matching unit after it. -/
def c6exU0 : RUnit := ⟨none, none, some "m0", none, "old", false⟩

def c6exUF : RUnit := ⟨some "Nova", none, some "mf", none, "boom", true⟩

def c6exU2 : RUnit := ⟨some "Nova", none, some "m2", none, "reply", false⟩

/-- State with a faulty unit standing between the marker and a matching
unit. -/
def c6exState : SurfaceState := ⟨none, [c6exU0, c6exUF, c6exU2]⟩

/-- The same state with the fault healed. -/
def c6exStateOk : SurfaceState :=
  ⟨none, [c6exU0, ⟨some "Echo", none, some "mf", none, "boom", false⟩,
          c6exU2]⟩

/-- Counterexample to C6 as stated: with a fault on the unit at position 1,
the tick returns not-settled and the readable matching unit at position 2 is
not designated on that tick; on the same state with the fault healed (and the
healed unit not matching) the very same tick designates it.  So the scan does
not continue with the next unit after a fault. -/
theorem c6_counterexample :
    condition_met "Nova" (some "m0") c6exState = none ∧
    condition_met "Nova" (some "m0") c6exStateOk = some (2, c6exU2) ∧
    c6exU2.readFault = false ∧
    speakerMatches "Nova" c6exU2 = true := by
  decide

/-- C6 amended.  An adapter-level fault on a candidate unit is swallowed (it
can only yield the not-settled tick value, never an escalated error), but it
aborts the current tick's scan: whenever the units after the scan start are
some fault-free non-matching prefix followed by a faulty unit, the tick
returns not-settled regardless of what follows, and the scan re-runs on the
next tick. -/
theorem c6_fault_aborts_tick (character : String) (marker : Option String)
    (s : SurfaceState) (pre : List RUnit) (u : RUnit) (rest : List RUnit)
    (hind : s.indicator = none ∨
      ∃ ind, s.indicator = some ind ∧ ind.displayed = false)
    (hdrop : s.units.drop (scanStartIdx marker s.units) = pre ++ u :: rest)
    (hpre : ∀ v ∈ pre, v.readFault = false ∧
      speakerMatches character v = false)
    (hu : u.readFault = true) :
    condition_met character marker s = none := by
  have hscan : scanForResponse character marker s.units = none := by
    unfold scanForResponse
    rw [hdrop]
    exact scanLoopAux_fault_abort character pre _ u rest hpre hu
  rcases hind with hn | ⟨ind, hi, hd⟩
  · simp [condition_met, hn, hscan]
  · simp [condition_met, hi, hd, hscan]

/-- Witness for the amended C6: the concrete faulty state instantiates the
abort statement with an empty fault-free prefix. -/
theorem c6_fault_aborts_tick_witness :
    condition_met "Nova" (some "m0") c6exState = none :=
  c6_fault_aborts_tick "Nova" (some "m0") c6exState [] c6exUF [c6exU2]
    (Or.inl rfl) (by decide) (by simp) rfl

/-! ## C2 — the timeout last-chance check -/

/-- Recomputing the marker after accepting the newest, fault-free unit stores
exactly that unit's synthesized id. -/
theorem lastMsgMarker_of_getLast (units : List RUnit) (last : RUnit)
    (hl : units.getLast? = some last) (hf : last.readFault = false) :
    lastMsgMarker units = some (unitIdAt last (units.length - 1)) := by
  unfold lastMsgMarker
  rw [hl]
  simp [hf]

/-- C2.  The timeout fallback never touches the connection flag; it accepts
the newest unit exactly when that unit is readable, passes the trimmed-speaker
test and its synthesized id differs from the stored marker — in which case it
returns the unit's stripped text and stores that id as the new marker; in
every other situation it returns the literal timeout string and leaves the
marker unchanged. -/
theorem c2_timeout_last_chance (character : String) (marker : Option String)
    (conn : Bool) (units : List RUnit)
    (hf : ∀ last, units.getLast? = some last → last.readFault = false) :
    (timeoutCheck character marker conn units).2.2 = conn ∧
    (∀ last, units.getLast? = some last →
      speakerMatches character last = true →
      marker ≠ some (unitIdAt last (units.length - 1)) →
      timeoutCheck character marker conn units =
        (pyStrip last.text, some (unitIdAt last (units.length - 1)), conn)) ∧
    (¬ (∃ last, units.getLast? = some last ∧
          speakerMatches character last = true ∧
          marker ≠ some (unitIdAt last (units.length - 1))) →
      timeoutCheck character marker conn units =
        ("AI response timed out.", marker, conn)) := by
  rcases hl : units.getLast? with _ | last
  · refine ⟨by simp [timeoutCheck, hl], ?_, ?_⟩
    · intro last h
      simp at h
    · intro _
      simp [timeoutCheck, hl]
  · have hnf : last.readFault = false := hf last hl
    by_cases hm : speakerMatches character last = true
    · by_cases hd : marker = some (unitIdAt last (units.length - 1))
      · refine ⟨by simp [timeoutCheck, hl, hnf, hm, hd], ?_, ?_⟩
        · intro l hll hml hdl
          injection hll with he
          subst he
          exact absurd hd hdl
        · intro _
          simp [timeoutCheck, hl, hnf, hm, hd]
      · refine ⟨?_, ?_, ?_⟩
        · simp [timeoutCheck, hl, hnf, hm, hd]
        · intro l hll hml hdl
          injection hll with he
          subst he
          simp [timeoutCheck, hl, hnf, hm, hd,
            lastMsgMarker_of_getLast units last hl hnf]
        · intro hcon
          exact absurd ⟨last, rfl, hm, hd⟩ hcon
    · refine ⟨by simp [timeoutCheck, hl, hnf, hm], ?_, ?_⟩
      · intro l hll hml _
        injection hll with he
        subst he
        exact absurd hml hm
      · intro _
        simp [timeoutCheck, hl, hnf, hm]

/-- Newest unit for the C2 witness. -/
def c2exLast : RUnit := ⟨some "Nova", none, some "r1", none, " hi ", false⟩

/-- Unit list for the C2 witness. -/
def c2exUnits : List RUnit :=
  [⟨none, none, some "m0", none, "old", false⟩, c2exLast]

/-- Witness for C2: on the concrete list the connection flag survives, the
matching newest unit with a fresh id is accepted with its stripped text and
its id stored, and on a state whose marker already equals that id the call
returns the timeout string with everything unchanged. -/
theorem c2_timeout_last_chance_witness :
    (timeoutCheck "Nova" (some "m0") true c2exUnits).2.2 = true ∧
    timeoutCheck "Nova" (some "m0") true c2exUnits =
      ("hi", some "r1", true) ∧
    timeoutCheck "Nova" (some "r1") true c2exUnits =
      ("AI response timed out.", some "r1", true) := by
  have hf : ∀ last, c2exUnits.getLast? = some last →
      last.readFault = false := by
    intro last h
    simp [c2exUnits] at h
    rw [← h]
    rfl
  have h1 := c2_timeout_last_chance "Nova" (some "m0") true c2exUnits hf
  have h2 := c2_timeout_last_chance "Nova" (some "r1") true c2exUnits hf
  refine ⟨h1.1, ?_, ?_⟩
  · have := h1.2.1 c2exLast (by decide) (by decide) (by decide)
    simpa using this
  · apply h2.2.2
    intro hcon
    obtain ⟨l, hl, hm, hd⟩ := hcon
    simp [c2exUnits] at hl
    rw [← hl] at hd
    exact hd (by decide)

/-! ## C5 — empty-text handling on the settle path -/

/-- Units for the C5 development: a marker unit, a matching unit whose
stripped text is empty, and a later non-matching unit with its own id. -/
def c5exU0 : RUnit := ⟨none, none, some "m0", none, "old", false⟩

def c5exU1 : RUnit := ⟨some "Nova", none, some "m1", none, "   ", false⟩

def c5exU2 : RUnit := ⟨some "Echo", none, some "z9", none, "later", false⟩

/-- State for the C5 development. -/
def c5exState : SurfaceState := ⟨none, [c5exU0, c5exU1, c5exU2]⟩

/-- Counterexample to C5 as stated: the tick settles on the matching unit at
position 1 whose stripped text is empty, yet the settle path returns exactly
that empty string and advances the marker — and it advances it to the id of
the newest unit (`"z9"`), not to the matched unit's own id (`"m1"`). -/
theorem c5_counterexample :
    waitOutcomeOnSettle "Nova" (some "m0") c5exState =
      some ("", some "z9") ∧
    condition_met "Nova" (some "m0") c5exState = some (1, c5exU1) ∧
    pyStrip c5exU1.text = "" ∧
    c5exU1.idAttr = some "m1" := by
  decide

/-- C5 amended.  Whenever the wait condition settles on a unit, the settle
path returns that unit's stripped text unconditionally — the empty string
included, with no further polling — and stores the marker recomputed from the
newest unit of the list (which need not be the matched unit). -/
theorem c5_settle_returns_stripped_text (character : String)
    (marker : Option String) (s : SurfaceState) (i : Nat) (u : RUnit)
    (h : condition_met character marker s = some (i, u)) :
    waitOutcomeOnSettle character marker s =
      some (pyStrip u.text, lastMsgMarker s.units) := by
  simp [waitOutcomeOnSettle, h]

/-- Witness for the amended C5 at the concrete empty-text state. -/
theorem c5_settle_returns_stripped_text_witness :
    waitOutcomeOnSettle "Nova" (some "m0") c5exState =
      some (pyStrip c5exU1.text, lastMsgMarker c5exState.units) :=
  c5_settle_returns_stripped_text "Nova" (some "m0") c5exState 1 c5exU1
    (by decide)

/-! ## C7 — identity selection matching -/

/-- Counterexample to C7 as stated: the entry displayed as `"Nova  X"` (two
internal spaces) is selected for the requested name `"Nova X"` through the
XPath `normalize-space()` locator, although no entry's trimmed name equals
the requested name — so exact whitespace-trimmed equality is not necessary
for success. -/
theorem c7_counterexample :
    selectSucceeds ["Nova  X"] "Nova X" = true ∧
    (∀ e ∈ ["Nova  X"], pyStrip e ≠ "Nova X") := by
  decide

/-- C7 amended.  Selection succeeds exactly when some entry's displayed name
matches the requested name after whitespace normalization (trim plus collapse
of internal runs — the primary XPath locator) or after plain trimming (the
fallback iteration); the comparison is case-sensitive with no partial match,
so requesting `"nova"` against entries named exactly `"Nova"` and `"Echo"`
fails. -/
theorem c7_select_exact_or_normalized :
    (∀ (entries : List String) (name : String),
      selectSucceeds entries name = true ↔
        ∃ e ∈ entries, normalizeSpace e = name ∨ pyStrip e = name) ∧
    selectSucceeds ["Nova", "Echo"] "nova" = false := by
  constructor
  · intro entries name
    simp only [selectSucceeds, Bool.or_eq_true, List.any_eq_true,
      decide_eq_true_eq]
    constructor
    · rintro (⟨e, he, hp⟩ | ⟨e, he, hp⟩)
      exacts [⟨e, he, Or.inl hp⟩, ⟨e, he, Or.inr hp⟩]
    · rintro ⟨e, he, hp | hp⟩
      exacts [Or.inl ⟨e, he, hp⟩, Or.inr ⟨e, he, hp⟩]
  · decide

/-! ## C8 — exception handling of message submission -/

/-- A connected session with a live handle, a selected character and a stored
marker. -/
def c8exSession : STSession := ⟨some (), true, some "Nova", some "m0"⟩

/-- Counterexample to C8 as stated: the adapter-level `TimeoutException`
raised while locating the input field is answered with an explanatory error
string, but the session is left connected — it is not marked disconnected as
the claim requires of every adapter-level exception during submission. -/
theorem c8_counterexample :
    (sendMessage c8exSession true SubmitEvent.inputTimeout ("", none)).1 =
      "Error: Could not find the message input area in SillyTavern." ∧
    (sendMessage c8exSession true
        SubmitEvent.inputTimeout ("", none)).2.connected = true := by
  decide

/-- C8 amended.  The submission body always returns a string (it is a total
function into strings here, mirroring the catch-all handlers); starting from a
connected session, the connection flag is cleared exactly on a
`WebDriverException` during interaction, which also yields its explanatory
string; a failure to locate the input field yields the code's explanatory
string with the session state unchanged. -/
theorem c8_submission_faults (s : STSession) (b : Bool)
    (w : String × Option String) (h : s.connected = true) :
    (∀ ev, ((sendMessage s b ev w).2.connected = false ↔
        ∃ m, ev = SubmitEvent.webDriverFault m)) ∧
    (sendMessage s b SubmitEvent.inputTimeout w =
      ("Error: Could not find the message input area in SillyTavern.", s)) ∧
    (sendMessage s b SubmitEvent.inputMissing w =
      ("Error: Could not find the message input area in SillyTavern.", s)) ∧
    (∀ m, sendMessage s b (SubmitEvent.webDriverFault m) w =
      ("Error interacting with SillyTavern: " ++ m,
       { s with connected := false })) := by
  refine ⟨?_, rfl, rfl, fun m => rfl⟩
  intro ev
  cases ev <;> simp [sendMessage, h]

/-- Witness for the amended C8: applied to the concrete connected session, a
mid-interaction fault returns its explanatory string and clears the flag. -/
theorem c8_submission_faults_witness :
    sendMessage c8exSession true (SubmitEvent.webDriverFault "boom")
        ("", none) =
      ("Error interacting with SillyTavern: boom",
       ⟨some (), false, some "Nova", some "m0"⟩) := by
  have h := (c8_submission_faults c8exSession true ("", none) rfl).2.2.2 "boom"
  simpa using h

/-! ## C9 — persona substitution -/

/-- Configuration for the C9 counterexample: persona mode on, empty mapping,
configured default identity name `"Assistant"`. -/
def c9exCfg : BotConfig := ⟨true, [], "Assistant"⟩

/-- Counterexample to C9 as stated: for a caller absent from the mapping the
persona substituted before the payload is the hardcoded `"User"`, not the
configured default identity name (`"Assistant"` here). -/
theorem c9_counterexample :
    sendOps c9exCfg (some "alice") (some "123") "hello" =
      [AdapterOp.personaCmd "/persona User",
       AdapterOp.submitPayload "hello", AdapterOp.awaitResponse] ∧
    claimedPersonaFallback c9exCfg = "Assistant" ∧
    personaNameFor c9exCfg.persona_mapping (some "123") ≠
      claimedPersonaFallback c9exCfg := by
  decide

/-- C9 amended.  With persona mode enabled and a truthy username, the persona
command issued before the payload uses the name mapped from the caller id
when present, and the hardcoded default `"User"` when the id is absent from
the mapping; and the substitution is fire-and-forget: the submission result is
identical whether the persona command succeeded or failed. -/
theorem c9_persona_substitution :
    (∀ (cfg : BotConfig) (uid n uname text : String),
      cfg.use_personas = true → uname ≠ "" → uid ≠ "" →
      List.lookup uid cfg.persona_mapping = some n →
      sendOps cfg (some uname) (some uid) text =
        [AdapterOp.personaCmd ("/persona " ++ n),
         AdapterOp.submitPayload text, AdapterOp.awaitResponse]) ∧
    (∀ (cfg : BotConfig) (uid uname text : String),
      cfg.use_personas = true → uname ≠ "" → uid ≠ "" →
      List.lookup uid cfg.persona_mapping = none →
      sendOps cfg (some uname) (some uid) text =
        [AdapterOp.personaCmd "/persona User",
         AdapterOp.submitPayload text, AdapterOp.awaitResponse]) ∧
    (∀ (s : STSession) (ev : SubmitEvent) (w : String × Option String),
      sendMessage s true ev w = sendMessage s false ev w) := by
  refine ⟨?_, ?_, ?_⟩
  · intro cfg uid n uname text hp hu hid hl
    simp [sendOps, personaNameFor, hp, hu, hid, hl]
  · intro cfg uid uname text hp hu hid hl
    simp [sendOps, personaNameFor, hp, hu, hid, hl]
  · intro s ev w
    rfl

/-- Witness for the amended C9: a mapped caller gets the mapped persona name
in the command issued before the payload. -/
theorem c9_persona_substitution_witness :
    sendOps ⟨true, [("123", "Ann")], "Assistant"⟩ (some "alice")
        (some "123") "hi" =
      [AdapterOp.personaCmd ("/persona " ++ "Ann"),
       AdapterOp.submitPayload "hi", AdapterOp.awaitResponse] :=
  c9_persona_substitution.1 ⟨true, [("123", "Ann")], "Assistant"⟩
    "123" "Ann" "alice" "hi" rfl (by decide) (by decide) rfl

/-! ## C10 — disconnect idempotence -/

/-- A stale session without a handle but with a lingering character and
marker; such a state is reached when a reconnect attempt fails at webdriver
setup (line 188 overwrites the handle with `None` and line 190 clears only
the `connected` flag) after an earlier send marked the session disconnected
without clearing the other fields (line 360). -/
def c10exStale : STSession := ⟨none, false, some "Assistant", some "5"⟩

/-- Counterexample to C10 as stated: from the stale handleless state, one
`disconnect` call is a no-op — the observable state afterwards still carries
an active identity and a marker, contradicting the claim that one call always
leaves no active identity and no marker. -/
theorem c10_counterexample :
    disconnect c10exStale = c10exStale ∧
    (disconnect c10exStale).current_character = some "Assistant" ∧
    (disconnect c10exStale).last_message_id = some "5" := by
  decide

/-- C10 amended.  From every state, a second consecutive `disconnect` leaves
the state identical to the state after the first call (idempotence holds);
when a handle is present the call clears the handle, the connected flag, the
active identity and the marker; when no handle is present the call leaves the
state exactly as it was — so a lingering identity or marker in a handleless
state is not cleared. -/
theorem c10_disconnect_idempotent (s : STSession) :
    disconnect (disconnect s) = disconnect s ∧
    (∀ h : Unit, s.driver = some h →
      disconnect s = ⟨none, false, none, none⟩) ∧
    (s.driver = none → disconnect s = s) := by
  rcases hd : s.driver with _ | h
  · have h1 : disconnect s = s := by simp [disconnect, hd]
    refine ⟨by rw [h1]; exact h1, ?_, fun _ => h1⟩
    intro u hu
    cases hu
  · have h1 : disconnect s = ⟨none, false, none, none⟩ := by
      simp [disconnect, hd]
    refine ⟨?_, fun _ _ => h1, ?_⟩
    · rw [h1]
      rfl
    · intro hn
      cases hn

/-- Witness for the amended C10 at a live connected session. -/
def c10exLive : STSession := ⟨some (), true, some "Nova", some "m1"⟩

/-- Witness for the amended C10: a live session is fully cleared by one call
and unchanged by a second. -/
theorem c10_disconnect_idempotent_witness :
    disconnect (disconnect c10exLive) = disconnect c10exLive ∧
    disconnect c10exLive = ⟨none, false, none, none⟩ :=
  ⟨(c10_disconnect_idempotent c10exLive).1,
   (c10_disconnect_idempotent c10exLive).2.1 () rfl⟩

/-! ## C3 — serialization of concurrent relay requests -/

/-- C3 (code bug, exhibited).  The schedule in which request B runs while
request A is suspended at the `asyncio.sleep` inside `set_persona` is a legal
interleaving of the two calls' atomic segments — the code has no queue or
lock excluding it — and its adapter trace is not serialized: B's persona
command is issued between A's persona command and A's payload, so the two
relay calls do not execute one-at-a-time. -/
theorem c3_interleaving_breaks_serialization :
    SegInterleave (relaySegments TaskTag.A) (relaySegments TaskTag.B)
      badSchedule ∧
    ¬ Serialized badSchedule.flatten := by
  constructor
  · exact SegInterleave.left _ (SegInterleave.right _
      (SegInterleave.left _ (SegInterleave.right _ SegInterleave.nil)))
  · intro h
    rcases h with h | h
    · exact absurd h (by decide)
    · exact absurd h (by decide)
